import Mathlib

/-! hal_silabs: heap shim, watchdog header and secure element constants.

A shallow embedding of

* `zephyr/src/sl_malloc_zephyr.c` (the `sl_malloc` / `sl_free` shim over the
  Zephyr kernel allocator),
* `simplicity_sdk/platform/emlib/inc/em_wdog.h` (the inline watchdog
  register accessors, the period-selection enumeration, the initialization
  structure and its default initializer), and
* `simplicity_sdk/platform/security/sl_component/se_manager/inc/sl_se_manager_defines.h`
  (the key type encodings and the tamper signal tables).

C functions with side effects are state transformers (`StateM`); `uint32_t`
values are natural numbers, with an explicit reduction modulo `2 ^ 32` at the
operators (`~`, `<<`) whose result depends on the word size. Preprocessor
conditionals are functions of the macros they test.
-/

namespace HalSilabs

/-! ## The heap shim -/

/-- The null pointer. Pointers are addresses, `NULL` is address zero. -/
def NULL : Nat := 0

/-- The kernel allocator of `<zephyr/kernel.h>`, which is not part of this
repository: `k_malloc` and `k_free` are arbitrary transformers of the kernel
state `σ`. `k_malloc` yields the address of the new block, or `NULL`. -/
structure Kernel (σ : Type) where
  /-- Models `void *k_malloc(size_t size)`. -/
  k_malloc : Nat → StateM σ Nat
  /-- Models `void k_free(void *ptr)`. -/
  k_free : Nat → StateM σ Unit

/-- Embeds `void *sl_malloc(size_t size) { return k_malloc(size); }`. The
translation unit is compiled only when `CONFIG_HEAP_MEM_POOL_SIZE > 0`. -/
def sl_malloc {σ : Type} (K : Kernel σ) (size : Nat) : StateM σ Nat := do
  return (← K.k_malloc size)

/-- Embeds `void sl_free(void *ptr) { k_free(ptr); }`. The translation unit
is compiled only when `CONFIG_HEAP_MEM_POOL_SIZE > 0`. -/
def sl_free {σ : Type} (K : Kernel σ) (ptr : Nat) : StateM σ Unit := do
  K.k_free ptr

/-! ## The watchdog register block -/

/-- The registers of the watchdog block that `em_wdog.h` names. `IFS` and
`IFC` exist on devices without set/clear aliases, the `_SET` / `_CLR` aliases
on devices with `WDOG_HAS_SET_CLEAR`. -/
inductive Reg where
  | CTRL | EN | STATUS | IF | IEN | IFS | IFC | IF_SET | IF_CLR | IEN_SET | IEN_CLR
  deriving DecidableEq, Repr

/-- Modelled from the spec: `WDOG_TypeDef` is declared in `em_device.h`, which
is not among the sources. The spec speaks of registers at fixed hardware
offsets, so a register block is the content of each named register. -/
abbrev WDOG_TypeDef := Reg → Nat

/-- One access to a register of the block, as issued by the program. -/
inductive Access where
  | load (r : Reg)
  | store (r : Reg) (v : Nat)
  deriving DecidableEq, Repr

/-- The register block together with the accesses issued so far, oldest
first. -/
structure Bus where
  wdog : WDOG_TypeDef
  log : List Access

/-- Reading `wdog->r`. -/
def rd (r : Reg) : StateM Bus Nat :=
  fun s => (s.wdog r, { s with log := s.log ++ [Access.load r] })

/-- The assignment `wdog->r = v`. -/
def wr (r : Reg) (v : Nat) : StateM Bus Unit :=
  fun s => ((), { wdog := Function.update s.wdog r v, log := s.log ++ [Access.store r v] })

/-- The stores among a list of accesses, in order. -/
def storesIn : List Access → List (Reg × Nat)
  | [] => []
  | Access.load _ :: l => storesIn l
  | Access.store r v :: l => (r, v) :: storesIn l

/-- The accesses that running `m` from `s` adds to the log. -/
def issued {α : Type} (m : StateM Bus α) (s : Bus) : List Access :=
  (m.run s).2.log.drop s.log.length

/-- Whether a sequence of accesses is a read-modify-write of one register: a
load of a register followed by a store to the same register, and nothing
else. -/
def readModifyWrite : List Access → Bool
  | [Access.load r, Access.store r2 _] => decide (r = r2)
  | _ => false

/-- The operator `~` on a `uint32_t`. -/
def not32 (x : Nat) : Nat := 2 ^ 32 - 1 - x % 2 ^ 32

/-- The feature macros and bit-field constants that `em_wdog.h` takes from the
device header `em_device.h`, which is not among the sources. -/
structure WdogDevice where
  /-- Whether `WDOG_HAS_SET_CLEAR` is defined. -/
  defined_WDOG_HAS_SET_CLEAR : Bool
  /-- Whether `_WDOG_EN_MASK` is defined. -/
  defined_WDOG_EN_MASK : Bool
  /-- Whether `_WDOG_STATUS_MASK` is defined. -/
  defined_WDOG_STATUS_MASK : Bool
  _WDOG_EN_EN_MASK : Nat
  WDOG_EN_EN : Nat
  _WDOG_CTRL_EN_MASK : Nat
  WDOG_CTRL_EN : Nat
  _WDOG_STATUS_LOCK_MASK : Nat
  WDOG_STATUS_LOCK_LOCKED : Nat
  _WDOG_CTRL_LOCK_MASK : Nat
  WDOG_CTRL_LOCK : Nat

/-- Embeds `WDOGn_IntClear`. -/
def WDOGn_IntClear (dev : WdogDevice) (flags : Nat) : StateM Bus Unit :=
  if dev.defined_WDOG_HAS_SET_CLEAR then
    wr Reg.IF_CLR flags
  else
    wr Reg.IFC flags

/-- Embeds `WDOGn_IntDisable`. -/
def WDOGn_IntDisable (dev : WdogDevice) (flags : Nat) : StateM Bus Unit :=
  if dev.defined_WDOG_HAS_SET_CLEAR then
    wr Reg.IEN_CLR flags
  else do
    let ien ← rd Reg.IEN
    wr Reg.IEN (ien &&& not32 flags)

/-- Embeds `WDOGn_IntEnable`. -/
def WDOGn_IntEnable (dev : WdogDevice) (flags : Nat) : StateM Bus Unit :=
  if dev.defined_WDOG_HAS_SET_CLEAR then
    wr Reg.IEN_SET flags
  else do
    let ien ← rd Reg.IEN
    wr Reg.IEN (ien ||| flags)

/-- Embeds `WDOGn_IntGet`. -/
def WDOGn_IntGet : StateM Bus Nat := do
  return (← rd Reg.IF)

/-- Embeds `WDOGn_IntGetEnabled`: `IEN` is read into `tmp` first, then `IF`. -/
def WDOGn_IntGetEnabled : StateM Bus Nat := do
  let tmp ← rd Reg.IEN
  let pending ← rd Reg.IF
  return pending &&& tmp

/-- Embeds `WDOGn_IntSet`. -/
def WDOGn_IntSet (dev : WdogDevice) (flags : Nat) : StateM Bus Unit :=
  if dev.defined_WDOG_HAS_SET_CLEAR then
    wr Reg.IF_SET flags
  else
    wr Reg.IFS flags

/-- Embeds `WDOGn_IsEnabled`. -/
def WDOGn_IsEnabled (dev : WdogDevice) : StateM Bus Bool :=
  if dev.defined_WDOG_EN_MASK then do
    let en ← rd Reg.EN
    return decide (en &&& dev._WDOG_EN_EN_MASK = dev.WDOG_EN_EN)
  else do
    let ctrl ← rd Reg.CTRL
    return decide (ctrl &&& dev._WDOG_CTRL_EN_MASK = dev.WDOG_CTRL_EN)

/-- Embeds `WDOGn_IsLocked`. -/
def WDOGn_IsLocked (dev : WdogDevice) : StateM Bus Bool :=
  if dev.defined_WDOG_STATUS_MASK then do
    let status ← rd Reg.STATUS
    return decide (status &&& dev._WDOG_STATUS_LOCK_MASK = dev.WDOG_STATUS_LOCK_LOCKED)
  else do
    let ctrl ← rd Reg.CTRL
    return decide (ctrl &&& dev._WDOG_CTRL_LOCK_MASK = dev.WDOG_CTRL_LOCK)

/-! ## The period selection -/

/-- Embeds `WDOG_PeriodSel_TypeDef`. -/
inductive WDOG_PeriodSel_TypeDef where
  | wdogPeriod_9 | wdogPeriod_17 | wdogPeriod_33 | wdogPeriod_65
  | wdogPeriod_129 | wdogPeriod_257 | wdogPeriod_513 | wdogPeriod_1k
  | wdogPeriod_2k | wdogPeriod_4k | wdogPeriod_8k | wdogPeriod_16k
  | wdogPeriod_32k | wdogPeriod_64k | wdogPeriod_128k | wdogPeriod_256k
  deriving DecidableEq, Repr

namespace WDOG_PeriodSel_TypeDef

/-- The numeric value the header gives each enumerator. -/
def code : WDOG_PeriodSel_TypeDef → Nat
  | wdogPeriod_9 => 0x0
  | wdogPeriod_17 => 0x1
  | wdogPeriod_33 => 0x2
  | wdogPeriod_65 => 0x3
  | wdogPeriod_129 => 0x4
  | wdogPeriod_257 => 0x5
  | wdogPeriod_513 => 0x6
  | wdogPeriod_1k => 0x7
  | wdogPeriod_2k => 0x8
  | wdogPeriod_4k => 0x9
  | wdogPeriod_8k => 0xA
  | wdogPeriod_16k => 0xB
  | wdogPeriod_32k => 0xC
  | wdogPeriod_64k => 0xD
  | wdogPeriod_128k => 0xE
  | wdogPeriod_256k => 0xF

/-- The number of clock periods the header's comment documents for each
enumerator. -/
def clockPeriods : WDOG_PeriodSel_TypeDef → Nat
  | wdogPeriod_9 => 9
  | wdogPeriod_17 => 17
  | wdogPeriod_33 => 33
  | wdogPeriod_65 => 65
  | wdogPeriod_129 => 129
  | wdogPeriod_257 => 257
  | wdogPeriod_513 => 513
  | wdogPeriod_1k => 1025
  | wdogPeriod_2k => 2049
  | wdogPeriod_4k => 4097
  | wdogPeriod_8k => 8193
  | wdogPeriod_16k => 16385
  | wdogPeriod_32k => 32769
  | wdogPeriod_64k => 65537
  | wdogPeriod_128k => 131073
  | wdogPeriod_256k => 262145

/-- The enumerators in the order of their declaration. -/
def all : List WDOG_PeriodSel_TypeDef :=
  [wdogPeriod_9, wdogPeriod_17, wdogPeriod_33, wdogPeriod_65,
   wdogPeriod_129, wdogPeriod_257, wdogPeriod_513, wdogPeriod_1k,
   wdogPeriod_2k, wdogPeriod_4k, wdogPeriod_8k, wdogPeriod_16k,
   wdogPeriod_32k, wdogPeriod_64k, wdogPeriod_128k, wdogPeriod_256k]

end WDOG_PeriodSel_TypeDef

/-! ## The watchdog initialization structure -/

/-- Whether each feature macro that `em_wdog.h` tests around the members of
`WDOG_Init_TypeDef` and around `WDOG_INIT_DEFAULT` is defined. The macros come
from the device header `em_device.h`, which is not among the sources. -/
structure WdogInitMacros where
  _WDOG_CTRL_CLRSRC_MASK : Bool
  _WDOG_CFG_CLRSRC_MASK : Bool
  _WDOG_CFG_EM1RUN_MASK : Bool
  _WDOG_CFG_MASK : Bool
  _WDOG_CTRL_SWOSCBLOCK_MASK : Bool
  _WDOG_CTRL_CLKSEL_MASK : Bool
  _WDOG_CTRL_WARNSEL_MASK : Bool
  _WDOG_CFG_WARNSEL_MASK : Bool
  _WDOG_CTRL_WINSEL_MASK : Bool
  _WDOG_CFG_WINSEL_MASK : Bool
  _WDOG_CTRL_WDOGRSTDIS_MASK : Bool
  _WDOG_CFG_WDOGRSTDIS_MASK : Bool

/-- The types of the members of `WDOG_Init_TypeDef`. -/
inductive InitType where
  | bool | clkSel | periodSel | warnSel | winSel
  deriving DecidableEq, Repr

/-- The members of `WDOG_Init_TypeDef`, over all feature macros. -/
inductive InitMember where
  | enable | debugRun | clrSrc | em1Run | em2Run | em3Run | em4Block
  | prs0MissRstEn | prs1MissRstEn | swoscBlock | lock | clkSel | perSel
  | warnSel | winSel | resetDisable
  deriving DecidableEq, Repr

/-- The declared type of each member. -/
def InitMember.type : InitMember → InitType
  | InitMember.clkSel => InitType.clkSel
  | InitMember.perSel => InitType.periodSel
  | InitMember.warnSel => InitType.warnSel
  | InitMember.winSel => InitType.winSel
  | _ => InitType.bool

/-- Embeds `WDOG_Init_TypeDef`: the members the structure has under the
feature macros `m`, in declaration order. -/
def WDOG_Init_TypeDef (m : WdogInitMacros) : List InitMember :=
  [InitMember.enable, InitMember.debugRun]
  ++ (if m._WDOG_CTRL_CLRSRC_MASK || m._WDOG_CFG_CLRSRC_MASK then [InitMember.clrSrc] else [])
  ++ (if m._WDOG_CFG_EM1RUN_MASK then [InitMember.em1Run] else [])
  ++ [InitMember.em2Run, InitMember.em3Run, InitMember.em4Block]
  ++ (if m._WDOG_CFG_MASK then [InitMember.prs0MissRstEn, InitMember.prs1MissRstEn] else [])
  ++ (if m._WDOG_CTRL_SWOSCBLOCK_MASK then [InitMember.swoscBlock] else [])
  ++ [InitMember.lock]
  ++ (if m._WDOG_CTRL_CLKSEL_MASK then [InitMember.clkSel] else [])
  ++ [InitMember.perSel]
  ++ (if m._WDOG_CTRL_WARNSEL_MASK || m._WDOG_CFG_WARNSEL_MASK then [InitMember.warnSel] else [])
  ++ (if m._WDOG_CTRL_WINSEL_MASK || m._WDOG_CFG_WINSEL_MASK then [InitMember.winSel] else [])
  ++ (if m._WDOG_CTRL_WDOGRSTDIS_MASK || m._WDOG_CFG_WDOGRSTDIS_MASK then
        [InitMember.resetDisable] else [])

/-- The expressions that occur in `WDOG_INIT_DEFAULT`. -/
inductive Initializer where
  | boolean (b : Bool)
  | wdogClkSelLFRCO
  | period (p : WDOG_PeriodSel_TypeDef)
  | wdogWarnDisable
  | wdogIllegalWindowDisable
  deriving DecidableEq, Repr

/-- The type of each initializer expression. -/
def Initializer.type : Initializer → InitType
  | Initializer.boolean _ => InitType.bool
  | Initializer.wdogClkSelLFRCO => InitType.clkSel
  | Initializer.period _ => InitType.periodSel
  | Initializer.wdogWarnDisable => InitType.warnSel
  | Initializer.wdogIllegalWindowDisable => InitType.winSel

/-- Embeds `WDOG_INIT_DEFAULT`: the positional initializer list of the variant
the preprocessor selects under the feature macros `m`. -/
def WDOG_INIT_DEFAULT (m : WdogInitMacros) : List Initializer :=
  if m._WDOG_CFG_MASK && m._WDOG_CFG_EM1RUN_MASK then
    [Initializer.boolean true,      -- Start Watchdog when initialization is done.
     Initializer.boolean false,     -- WDOG is not counting during debug halt.
     Initializer.boolean false,     -- The clear bit will clear the WDOG counter.
     Initializer.boolean false,     -- WDOG is not counting when in EM1.
     Initializer.boolean false,     -- WDOG is not counting when in EM2.
     Initializer.boolean false,     -- WDOG is not counting when in EM3.
     Initializer.boolean false,     -- EM4 can be entered.
     Initializer.boolean false,     -- PRS Source 0 missing event will not trigger a WDOG reset.
     Initializer.boolean false,     -- PRS Source 1 missing event will not trigger a WDOG reset.
     Initializer.boolean false,     -- Do not lock WDOG configuration.
     Initializer.period WDOG_PeriodSel_TypeDef.wdogPeriod_256k,
     Initializer.wdogWarnDisable,
     Initializer.wdogIllegalWindowDisable,
     Initializer.boolean false]     -- Do not disable reset.
  else if m._WDOG_CFG_MASK then
    [Initializer.boolean true,      -- Start Watchdog when initialization is done.
     Initializer.boolean false,     -- WDOG is not counting during debug halt.
     Initializer.boolean false,     -- The clear bit will clear the WDOG counter.
     Initializer.boolean false,     -- WDOG is not counting when in EM2.
     Initializer.boolean false,     -- WDOG is not counting when in EM3.
     Initializer.boolean false,     -- EM4 can be entered.
     Initializer.boolean false,     -- PRS Source 0 missing event will not trigger a WDOG reset.
     Initializer.boolean false,     -- PRS Source 1 missing event will not trigger a WDOG reset.
     Initializer.boolean false,     -- Do not lock WDOG configuration.
     Initializer.period WDOG_PeriodSel_TypeDef.wdogPeriod_256k,
     Initializer.wdogWarnDisable,
     Initializer.wdogIllegalWindowDisable,
     Initializer.boolean false]     -- Do not disable reset.
  else if m._WDOG_CTRL_WARNSEL_MASK && m._WDOG_CTRL_WDOGRSTDIS_MASK
      && m._WDOG_CTRL_WINSEL_MASK then
    [Initializer.boolean true,      -- Start Watchdog when initialization is done.
     Initializer.boolean false,     -- WDOG is not counting during debug halt.
     Initializer.boolean false,     -- The clear bit will clear the WDOG counter.
     Initializer.boolean false,     -- WDOG is not counting when in EM2.
     Initializer.boolean false,     -- WDOG is not counting when in EM3.
     Initializer.boolean false,     -- EM4 can be entered.
     Initializer.boolean false,     -- Do not block disabling LFRCO/LFXO in CMU.
     Initializer.boolean false,     -- Do not lock WDOG configuration.
     Initializer.wdogClkSelLFRCO,
     Initializer.period WDOG_PeriodSel_TypeDef.wdogPeriod_256k,
     Initializer.wdogWarnDisable,
     Initializer.wdogIllegalWindowDisable,
     Initializer.boolean false]     -- Do not disable reset.
  else
    [Initializer.boolean true,      -- Start Watchdog when initialization is done.
     Initializer.boolean false,     -- WDOG is not counting during debug halt.
     Initializer.boolean false,     -- WDOG is not counting when in EM2.
     Initializer.boolean false,     -- WDOG is not counting when in EM3.
     Initializer.boolean false,     -- EM4 can be entered.
     Initializer.boolean false,     -- Do not block disabling LFRCO/LFXO in CMU.
     Initializer.boolean false,     -- Do not lock WDOG configuration.
     Initializer.wdogClkSelLFRCO,
     Initializer.period WDOG_PeriodSel_TypeDef.wdogPeriod_256k]

/-- The value `WDOG_Init_TypeDef x = WDOG_INIT_DEFAULT;` gives the member `f`:
positional initialization pairs the members, in declaration order, with the
initializers. `none` for a member the structure does not have or the list
does not reach. -/
def initialValue (m : WdogInitMacros) (f : InitMember) : Option Initializer :=
  ((WDOG_Init_TypeDef m).zip (WDOG_INIT_DEFAULT m)).lookup f

/-- The feature sets of the four variants of `WDOG_INIT_DEFAULT`. A device has
either a `CFG` register, and then the clear source, warning, window and reset
disable bit-fields are `CFG` bit-fields and there is no `CTRL` bit-field
(`EM1RUN` may or may not exist: the first two variants); or it has a `CTRL`
register with the oscillator block and clock select bit-fields and either all
of the clear source, warning, window and reset disable bit-fields (the third
variant) or none of them (the fourth). -/
def WdogInitMacros.isVariant (m : WdogInitMacros) : Bool :=
  if m._WDOG_CFG_MASK then
    m._WDOG_CFG_CLRSRC_MASK && m._WDOG_CFG_WARNSEL_MASK && m._WDOG_CFG_WINSEL_MASK
    && m._WDOG_CFG_WDOGRSTDIS_MASK
    && !(m._WDOG_CTRL_CLRSRC_MASK || m._WDOG_CTRL_SWOSCBLOCK_MASK || m._WDOG_CTRL_CLKSEL_MASK
          || m._WDOG_CTRL_WARNSEL_MASK || m._WDOG_CTRL_WINSEL_MASK
          || m._WDOG_CTRL_WDOGRSTDIS_MASK)
  else
    !(m._WDOG_CFG_CLRSRC_MASK || m._WDOG_CFG_EM1RUN_MASK || m._WDOG_CFG_WARNSEL_MASK
        || m._WDOG_CFG_WINSEL_MASK || m._WDOG_CFG_WDOGRSTDIS_MASK)
    && m._WDOG_CTRL_SWOSCBLOCK_MASK && m._WDOG_CTRL_CLKSEL_MASK
    && ((m._WDOG_CTRL_CLRSRC_MASK && m._WDOG_CTRL_WARNSEL_MASK && m._WDOG_CTRL_WINSEL_MASK
          && m._WDOG_CTRL_WDOGRSTDIS_MASK)
        || !(m._WDOG_CTRL_CLRSRC_MASK || m._WDOG_CTRL_WARNSEL_MASK || m._WDOG_CTRL_WINSEL_MASK
              || m._WDOG_CTRL_WDOGRSTDIS_MASK))

/-! ## Secure element key types (`sl_se_manager_defines.h`) -/

/-- The operator `<<` on a 32-bit unsigned operand. -/
def shl32 (x n : Nat) : Nat := (x <<< n) % 2 ^ 32

/-- Mask for algorithm field in key type. -/
def SL_SE_KEY_TYPE_ALGORITHM_MASK : Nat := 0xf0000000

/-- Offset of algorithm field in key type. -/
def SL_SE_KEY_TYPE_ALGORITHM_OFFSET : Nat := 28

/-- Mask for attributes field in key type. -/
def SL_SE_KEY_TYPE_ATTRIBUTES_MASK : Nat := 0x00007fff

/-- Offset of attributes field in key type. -/
def SL_SE_KEY_TYPE_ATTRIBUTES_OFFSET : Nat := 0

/-- Symmetric key type. -/
def SL_SE_KEY_TYPE_SYMMETRIC : Nat := 0x00000000

/-- Symmetric key type for AES-128 (16 byte key). -/
def SL_SE_KEY_TYPE_AES_128 : Nat := 0x00000010

/-- Symmetric key type for AES-192 (24 byte key). -/
def SL_SE_KEY_TYPE_AES_192 : Nat := 0x00000018

/-- Symmetric key type for AES-256 (32 byte key). -/
def SL_SE_KEY_TYPE_AES_256 : Nat := 0x00000020

/-- ECC Weierstrass Prime key type. -/
def SL_SE_KEY_TYPE_ECC_WEIERSTRASS_PRIME_CUSTOM : Nat :=
  shl32 0x8 SL_SE_KEY_TYPE_ALGORITHM_OFFSET

/-- ECC Montgomery key type. -/
def SL_SE_KEY_TYPE_ECC_MONTGOMERY : Nat := shl32 0xb SL_SE_KEY_TYPE_ALGORITHM_OFFSET

/-- EDDSA key type. -/
def SL_SE_KEY_TYPE_ECC_EDDSA : Nat := shl32 0xc SL_SE_KEY_TYPE_ALGORITHM_OFFSET

/-- ECC NIST P-192. -/
def SL_SE_KEY_TYPE_ECC_P192 : Nat := SL_SE_KEY_TYPE_ECC_WEIERSTRASS_PRIME_CUSTOM ||| 0x18

/-- ECC NIST P-224. -/
def SL_SE_KEY_TYPE_ECC_P224 : Nat := SL_SE_KEY_TYPE_ECC_WEIERSTRASS_PRIME_CUSTOM ||| 0x1C

/-- ECC NIST P-256. -/
def SL_SE_KEY_TYPE_ECC_P256 : Nat := SL_SE_KEY_TYPE_ECC_WEIERSTRASS_PRIME_CUSTOM ||| 0x20

/-- ECC Ed25519 key for EdDSA. -/
def SL_SE_KEY_TYPE_ECC_ED25519 : Nat := SL_SE_KEY_TYPE_ECC_EDDSA ||| 0x20

/-- ECC X25519 key for ECDH. -/
def SL_SE_KEY_TYPE_ECC_X25519 : Nat := SL_SE_KEY_TYPE_ECC_MONTGOMERY ||| 0x20

/-- ECC NIST P-384. Defined only when the security feature is the vault. -/
def SL_SE_KEY_TYPE_ECC_P384 : Nat := SL_SE_KEY_TYPE_ECC_WEIERSTRASS_PRIME_CUSTOM ||| 0x30

/-- ECC NIST P-521. Defined only when the security feature is the vault. -/
def SL_SE_KEY_TYPE_ECC_P521 : Nat := SL_SE_KEY_TYPE_ECC_WEIERSTRASS_PRIME_CUSTOM ||| 0x42

/-- ECC X448 key for ECDH. Defined only when the security feature is the
vault. -/
def SL_SE_KEY_TYPE_ECC_X448 : Nat := SL_SE_KEY_TYPE_ECC_MONTGOMERY ||| 0x38

/-- ECC Ed448 key for EdDSA. Defined only when the security feature is the
vault. -/
def SL_SE_KEY_TYPE_ECC_ED448 : Nat := SL_SE_KEY_TYPE_ECC_EDDSA ||| 0x38

/-- The algorithm field of a key type:
`(type & SL_SE_KEY_TYPE_ALGORITHM_MASK) >> SL_SE_KEY_TYPE_ALGORITHM_OFFSET`. -/
def keyTypeAlgorithm (type : Nat) : Nat :=
  (type &&& SL_SE_KEY_TYPE_ALGORITHM_MASK) >>> SL_SE_KEY_TYPE_ALGORITHM_OFFSET

/-- The attributes field of a key type:
`(type & SL_SE_KEY_TYPE_ATTRIBUTES_MASK) >> SL_SE_KEY_TYPE_ATTRIBUTES_OFFSET`. -/
def keyTypeAttributes (type : Nat) : Nat :=
  (type &&& SL_SE_KEY_TYPE_ATTRIBUTES_MASK) >>> SL_SE_KEY_TYPE_ATTRIBUTES_OFFSET

/-! ## Secure element tamper signals (`sl_se_manager_defines.h`) -/

/-- The device-family macros that select a tamper signal table. They come
from the device header, which is not among the sources. -/
structure SeFamilyMacros where
  _SILICON_LABS_32B_SERIES_2_CONFIG_1 : Bool
  _SILICON_LABS_32B_SERIES_2 : Bool
  _SILICON_LABS_32B_SERIES_2_CONFIG_5 : Bool
  _SILICON_LABS_32B_SERIES_2_CONFIG_9 : Bool
  _SILICON_LABS_32B_SERIES_3 : Bool

/-- The branches of the conditional around the tamper signal definitions. -/
inductive TamperVariant where
  | series2Config1
  | series2WithEtampdet
  | series2WithoutEtampdet
  | series3
  deriving DecidableEq, Repr

/-- The branch the preprocessor takes; `none` when no family macro is defined
and the header defines no tamper signal. -/
def tamperVariant (m : SeFamilyMacros) : Option TamperVariant :=
  if m._SILICON_LABS_32B_SERIES_2_CONFIG_1 then
    some TamperVariant.series2Config1
  else if m._SILICON_LABS_32B_SERIES_2 then
    if m._SILICON_LABS_32B_SERIES_2_CONFIG_5 || m._SILICON_LABS_32B_SERIES_2_CONFIG_9 then
      some TamperVariant.series2WithEtampdet
    else
      some TamperVariant.series2WithoutEtampdet
  else if m._SILICON_LABS_32B_SERIES_3 then
    some TamperVariant.series3
  else
    none

/-- The signals defined for Series 2 Config 1, in source order. -/
def tamperSignalsSeries2Config1 : List (String × Nat) :=
  [("SL_SE_TAMPER_SIGNAL_RESERVED_1", 0x0),
   ("SL_SE_TAMPER_SIGNAL_FILTER_COUNTER", 0x1),
   ("SL_SE_TAMPER_SIGNAL_WATCHDOG", 0x2),
   ("SL_SE_TAMPER_SIGNAL_RESERVED_2", 0x3),
   ("SL_SE_TAMPER_SIGNAL_SE_RAM_CRC", 0x4),
   ("SL_SE_TAMPER_SIGNAL_SE_HARDFAULT", 0x5),
   ("SL_SE_TAMPER_SIGNAL_RESERVED_3", 0x6),
   ("SL_SE_TAMPER_SIGNAL_SE_SOFTWARE_ASSERTION", 0x7),
   ("SL_SE_TAMPER_SIGNAL_SE_SECURE_BOOT_FAILED", 0x8),
   ("SL_SE_TAMPER_SIGNAL_USER_SECURE_BOOT_FAILED", 0x9),
   ("SL_SE_TAMPER_SIGNAL_MAILBOX_AUTHORIZATION_ERROR", 0xA),
   ("SL_SE_TAMPER_SIGNAL_DCI_AUTHORIZATION_ERROR", 0xB),
   ("SL_SE_TAMPER_SIGNAL_FLASH_INTEGRITY_ERROR", 0xC),
   ("SL_SE_TAMPER_SIGNAL_RESERVED_4", 0xD),
   ("SL_SE_TAMPER_SIGNAL_SELFTEST_FAILED", 0xE),
   ("SL_SE_TAMPER_SIGNAL_TRNG_MONITOR", 0xF),
   ("SL_SE_TAMPER_SIGNAL_PRS0", 0x10),
   ("SL_SE_TAMPER_SIGNAL_PRS1", 0x11),
   ("SL_SE_TAMPER_SIGNAL_PRS2", 0x12),
   ("SL_SE_TAMPER_SIGNAL_PRS3", 0x13),
   ("SL_SE_TAMPER_SIGNAL_PRS4", 0x14),
   ("SL_SE_TAMPER_SIGNAL_PRS5", 0x15),
   ("SL_SE_TAMPER_SIGNAL_PRS6", 0x16),
   ("SL_SE_TAMPER_SIGNAL_PRS7", 0x17),
   ("SL_SE_TAMPER_SIGNAL_DECOUPLE_BOD", 0x18),
   ("SL_SE_TAMPER_SIGNAL_TEMPERATURE_SENSOR", 0x19),
   ("SL_SE_TAMPER_SIGNAL_VOLTAGE_GLITCH_FALLING", 0x1A),
   ("SL_SE_TAMPER_SIGNAL_VOLTAGE_GLITCH_RISING", 0x1B),
   ("SL_SE_TAMPER_SIGNAL_SECURE_LOCK_ERROR", 0x1C),
   ("SL_SE_TAMPER_SIGNAL_SE_DEBUG_GRANTED", 0x1D),
   ("SL_SE_TAMPER_SIGNAL_DIGITAL_GLITCH", 0x1E),
   ("SL_SE_TAMPER_SIGNAL_SE_ICACHE_ERROR", 0x1F)]

/-- The signals defined for every other Series 2 device before the inner
conditional, in source order. -/
def tamperSignalsSeries2Common : List (String × Nat) :=
  [("SL_SE_TAMPER_SIGNAL_RESERVED_1", 0x0),
   ("SL_SE_TAMPER_SIGNAL_FILTER_COUNTER", 0x1),
   ("SL_SE_TAMPER_SIGNAL_WATCHDOG", 0x2),
   ("SL_SE_TAMPER_SIGNAL_RESERVED_2", 0x3),
   ("SL_SE_TAMPER_SIGNAL_SE_RAM_ECC_2", 0x4),
   ("SL_SE_TAMPER_SIGNAL_SE_HARDFAULT", 0x5),
   ("SL_SE_TAMPER_SIGNAL_RESERVED_3", 0x6),
   ("SL_SE_TAMPER_SIGNAL_SE_SOFTWARE_ASSERTION", 0x7),
   ("SL_SE_TAMPER_SIGNAL_SE_SECURE_BOOT_FAILED", 0x8),
   ("SL_SE_TAMPER_SIGNAL_USER_SECURE_BOOT_FAILED", 0x9),
   ("SL_SE_TAMPER_SIGNAL_MAILBOX_AUTHORIZATION_ERROR", 0xA),
   ("SL_SE_TAMPER_SIGNAL_DCI_AUTHORIZATION_ERROR", 0xB),
   ("SL_SE_TAMPER_SIGNAL_FLASH_INTEGRITY_ERROR", 0xC),
   ("SL_SE_TAMPER_SIGNAL_RESERVED_4", 0xD),
   ("SL_SE_TAMPER_SIGNAL_SELFTEST_FAILED", 0xE),
   ("SL_SE_TAMPER_SIGNAL_TRNG_MONITOR", 0xF),
   ("SL_SE_TAMPER_SIGNAL_SECURE_LOCK_ERROR", 0x10),
   ("SL_SE_TAMPER_ATAMPDET_EMPGD", 0x11),
   ("SL_SE_TAMPER_ATAMPDET_SUPGD", 0x12),
   ("SL_SE_TAMPER_SE_ICACHE_ERROR", 0x13),
   ("SL_SE_TAMPER_SIGNAL_SE_RAM_ECC_1", 0x14),
   ("SL_SE_TAMPER_SIGNAL_BOD", 0x15),
   ("SL_SE_TAMPER_SIGNAL_TEMPERATURE_SENSOR", 0x16),
   ("SL_SE_TAMPER_SIGNAL_DPLL_LOCK_FAIL_LOW", 0x17),
   ("SL_SE_TAMPER_SIGNAL_DPLL_LOCK_FAIL_HIGH", 0x18)]

/-- The signals of the inner branch for Config 5 and Config 9 (the devices with
ETAMPDET). -/
def tamperSignalsSeries2Etampdet : List (String × Nat) :=
  [("SL_SE_TAMPER_SIGNAL_ETAMPDET", 0x19),
   ("SL_SE_TAMPER_SIGNAL_PRS0", 0x1A),
   ("SL_SE_TAMPER_SIGNAL_PRS1", 0x1B),
   ("SL_SE_TAMPER_SIGNAL_PRS2", 0x1C),
   ("SL_SE_TAMPER_SIGNAL_PRS3", 0x1D),
   ("SL_SE_TAMPER_SIGNAL_PRS4", 0x1E),
   ("SL_SE_TAMPER_SIGNAL_PRS5", 0x1F)]

/-- The signals of the inner branch for the Series 2 devices without
ETAMPDET. -/
def tamperSignalsSeries2NoEtampdet : List (String × Nat) :=
  [("SL_SE_TAMPER_SIGNAL_PRS0", 0x19),
   ("SL_SE_TAMPER_SIGNAL_PRS1", 0x1A),
   ("SL_SE_TAMPER_SIGNAL_PRS2", 0x1B),
   ("SL_SE_TAMPER_SIGNAL_PRS3", 0x1C),
   ("SL_SE_TAMPER_SIGNAL_PRS4", 0x1D),
   ("SL_SE_TAMPER_SIGNAL_PRS5", 0x1E),
   ("SL_SE_TAMPER_SIGNAL_PRS6", 0x1F)]

/-- The signals defined for Series 3, in source order. -/
def tamperSignalsSeries3 : List (String × Nat) :=
  [("SL_SE_TAMPER_SIGNAL_RESERVED_1", 0x0),
   ("SL_SE_TAMPER_SIGNAL_FILTER_COUNTER", 0x1),
   ("SL_SE_TAMPER_SIGNAL_WATCHDOG", 0x2),
   ("SL_SE_TAMPER_SIGNAL_CRYPTO_ERROR", 0x3),
   ("SL_SE_TAMPER_SIGNAL_SE_RAM_ECC_2", 0x4),
   ("SL_SE_TAMPER_SIGNAL_RESERVED_2", 0x5),
   ("SL_SE_TAMPER_SIGNAL_SE_MAJOR_FAULT", 0x6),
   ("SL_SE_TAMPER_SIGNAL_L2ICACHE", 0x7),
   ("SL_SE_TAMPER_SIGNAL_RESERVED_3", 0x8),
   ("SL_SE_TAMPER_SIGNAL_USER_SECURE_BOOT_FAILED", 0x9),
   ("SL_SE_TAMPER_SIGNAL_MAILBOX_AUTHORIZATION_ERROR", 0xA),
   ("SL_SE_TAMPER_SIGNAL_DCI_AUTHORIZATION_ERROR", 0xB),
   ("SL_SE_TAMPER_SIGNAL_SE_SOFTWARE_ASSERTION", 0xC),
   ("SL_SE_TAMPER_SIGNAL_RESERVED_4", 0xD),
   ("SL_SE_TAMPER_SIGNAL_SELFTEST_FAILED", 0xE),
   ("SL_SE_TAMPER_SIGNAL_TRNG_MONITOR", 0xF),
   ("SL_SE_TAMPER_SIGNAL_SECURE_LOCK_ERROR", 0x10),
   ("SL_SE_TAMPER_ATAMPDET", 0x11),
   ("SL_SE_TAMPER_SIGNAL_OTP_ALARM", 0x12),
   ("SL_SE_TAMPER_SE_ICACHE_ERROR", 0x13),
   ("SL_SE_TAMPER_SIGNAL_SE_RAM_ECC_1", 0x14),
   ("SL_SE_TAMPER_SIGNAL_BOD", 0x15),
   ("SL_SE_TAMPER_SIGNAL_TEMPERATURE_SENSOR", 0x16),
   ("SL_SE_TAMPER_SIGNAL_DPLL_LOCK_FAIL", 0x17),
   ("SL_SE_TAMPER_SIGNAL_SOC_PLL_FAIL", 0x18),
   ("SL_SE_TAMPER_SIGNAL_ETAMPDET", 0x19),
   ("SL_SE_TAMPER_SIGNAL_KSU_ECC_1", 0x1A),
   ("SL_SE_TAMPER_SIGNAL_KSU_ECC_2", 0x1B),
   ("SL_SE_TAMPER_SIGNAL_QSPI_RESEED_ERR", 0x1C),
   ("SL_SE_TAMPER_SIGNAL_PRS0", 0x1D),
   ("SL_SE_TAMPER_SIGNAL_PRS1", 0x1E),
   ("SL_SE_TAMPER_SIGNAL_PRS2", 0x1F)]

/-- The tamper signal constants a variant defines, with their values. -/
def tamperSignals : TamperVariant → List (String × Nat)
  | TamperVariant.series2Config1 => tamperSignalsSeries2Config1
  | TamperVariant.series2WithEtampdet =>
      tamperSignalsSeries2Common ++ tamperSignalsSeries2Etampdet
  | TamperVariant.series2WithoutEtampdet =>
      tamperSignalsSeries2Common ++ tamperSignalsSeries2NoEtampdet
  | TamperVariant.series3 => tamperSignalsSeries3

/-- The value each variant gives `SL_SE_TAMPER_SIGNAL_NUM_SIGNALS`. -/
def SL_SE_TAMPER_SIGNAL_NUM_SIGNALS : TamperVariant → Nat
  | TamperVariant.series2Config1 => 0x20
  | TamperVariant.series2WithEtampdet => 0x20
  | TamperVariant.series2WithoutEtampdet => 0x20
  | TamperVariant.series3 => 0x20

/-- The values of the tamper signal constants of a variant, in source order. -/
def tamperSignalValues (v : TamperVariant) : List Nat :=
  (tamperSignals v).map Prod.snd

/-! ## Concrete inputs -/

/-- A device without set/clear aliases and without `EN` / `STATUS` registers:
the enable bit is bit 0 of `CTRL`, the lock bit is bit 4 of `CTRL`. Used as a
concrete input. -/
def legacyDevice : WdogDevice where
  defined_WDOG_HAS_SET_CLEAR := false
  defined_WDOG_EN_MASK := false
  defined_WDOG_STATUS_MASK := false
  _WDOG_EN_EN_MASK := 0
  WDOG_EN_EN := 0
  _WDOG_CTRL_EN_MASK := 0x1
  WDOG_CTRL_EN := 0x1
  _WDOG_STATUS_LOCK_MASK := 0
  WDOG_STATUS_LOCK_LOCKED := 0
  _WDOG_CTRL_LOCK_MASK := 0x10
  WDOG_CTRL_LOCK := 0x10

/-- A device with set/clear aliases and with `EN` / `STATUS` registers: the
enable bit is bit 0 of `EN`, the lock bit is bit 31 of `STATUS`. Used as a
concrete input. -/
def setClearDevice : WdogDevice where
  defined_WDOG_HAS_SET_CLEAR := true
  defined_WDOG_EN_MASK := true
  defined_WDOG_STATUS_MASK := true
  _WDOG_EN_EN_MASK := 0x1
  WDOG_EN_EN := 0x1
  _WDOG_CTRL_EN_MASK := 0
  WDOG_CTRL_EN := 0
  _WDOG_STATUS_LOCK_MASK := 0x80000000
  WDOG_STATUS_LOCK_LOCKED := 0x80000000
  _WDOG_CTRL_LOCK_MASK := 0
  WDOG_CTRL_LOCK := 0

/-- A register block with `CTRL = 0x11`, `EN = 0x1`, `IF = 0x3`, `IEN = 0x5`
and every other register zero, with an empty access log. Used as a concrete
input. -/
def sampleBus : Bus where
  wdog := fun r =>
    match r with
    | Reg.CTRL => 0x11
    | Reg.EN => 0x1
    | Reg.IF => 0x3
    | Reg.IEN => 0x5
    | _ => 0
  log := []

/-- The feature macros of a device with a `CFG` register that has `EM1RUN`
(first variant of `WDOG_INIT_DEFAULT`). Used as a concrete input. -/
def cfgEm1RunMacros : WdogInitMacros where
  _WDOG_CTRL_CLRSRC_MASK := false
  _WDOG_CFG_CLRSRC_MASK := true
  _WDOG_CFG_EM1RUN_MASK := true
  _WDOG_CFG_MASK := true
  _WDOG_CTRL_SWOSCBLOCK_MASK := false
  _WDOG_CTRL_CLKSEL_MASK := false
  _WDOG_CTRL_WARNSEL_MASK := false
  _WDOG_CFG_WARNSEL_MASK := true
  _WDOG_CTRL_WINSEL_MASK := false
  _WDOG_CFG_WINSEL_MASK := true
  _WDOG_CTRL_WDOGRSTDIS_MASK := false
  _WDOG_CFG_WDOGRSTDIS_MASK := true

/-- The feature macros of a device with a `CFG` register without `EM1RUN`
(second variant). Used as a concrete input. -/
def cfgMacros : WdogInitMacros :=
  { cfgEm1RunMacros with _WDOG_CFG_EM1RUN_MASK := false }

/-- The feature macros of a device with a `CTRL` register that has the warning,
window, clear source and reset disable bit-fields (third variant). Used as a
concrete input. -/
def ctrlWarnMacros : WdogInitMacros where
  _WDOG_CTRL_CLRSRC_MASK := true
  _WDOG_CFG_CLRSRC_MASK := false
  _WDOG_CFG_EM1RUN_MASK := false
  _WDOG_CFG_MASK := false
  _WDOG_CTRL_SWOSCBLOCK_MASK := true
  _WDOG_CTRL_CLKSEL_MASK := true
  _WDOG_CTRL_WARNSEL_MASK := true
  _WDOG_CFG_WARNSEL_MASK := false
  _WDOG_CTRL_WINSEL_MASK := true
  _WDOG_CFG_WINSEL_MASK := false
  _WDOG_CTRL_WDOGRSTDIS_MASK := true
  _WDOG_CFG_WDOGRSTDIS_MASK := false

/-- The feature macros of a device with a `CTRL` register without those
bit-fields (fourth variant). Used as a concrete input. -/
def ctrlMacros : WdogInitMacros :=
  { ctrlWarnMacros with
    _WDOG_CTRL_CLRSRC_MASK := false
    _WDOG_CTRL_WARNSEL_MASK := false
    _WDOG_CTRL_WINSEL_MASK := false
    _WDOG_CTRL_WDOGRSTDIS_MASK := false }

/-- A register block that differs from `sampleBus` in `IFC`, `IFS`, `IF_CLR`,
`IF_SET`, `IEN_SET` and `IEN_CLR`, which hold `0xFFFF`. Used as a concrete
input. -/
def otherBus : Bus where
  wdog := fun r =>
    match r with
    | Reg.CTRL => 0x11
    | Reg.EN => 0x1
    | Reg.IF => 0x3
    | Reg.IEN => 0x5
    | _ => 0xFFFF
  log := []

/-! ## Theorems: the heap shim -/

/-- C1: `sl_malloc size` is the same computation as `k_malloc size`: from every
kernel state it yields the same pointer and the same resulting state, and so
it yields `NULL` exactly when `k_malloc` does. -/
theorem sl_malloc_eq_k_malloc {σ : Type} (K : Kernel σ) (size : Nat) (h : σ) :
    (sl_malloc K size).run h = (K.k_malloc size).run h ∧
    (((sl_malloc K size).run h).1 = NULL ↔ ((K.k_malloc size).run h).1 = NULL) ∧
    ((sl_malloc K size).run h).2 = ((K.k_malloc size).run h).2 := by
  have e : (sl_malloc K size).run h = (K.k_malloc size).run h := rfl
  exact ⟨e, by rw [e], by rw [e]⟩

/-- C2: `sl_free ptr` is the same state transformation as `k_free ptr`, and
freeing the result of `sl_malloc n` with `sl_free` is the same transformation
as freeing the result of `k_malloc n` with `k_free`. -/
theorem sl_free_eq_k_free {σ : Type} (K : Kernel σ) (h : σ) :
    (∀ ptr : Nat, (sl_free K ptr).run h = (K.k_free ptr).run h) ∧
    (∀ n : Nat, (sl_malloc K n >>= sl_free K).run h = (K.k_malloc n >>= K.k_free).run h) := by
  exact ⟨fun _ => rfl, fun _ => rfl⟩

/-! ## Auxiliary facts about bits and about the access log -/

theorem testBit_not32 (x i : Nat) :
    (not32 x).testBit i = (decide (i < 32) && !x.testBit i) := by
  have hx : x % 2 ^ 32 < 2 ^ 32 := Nat.mod_lt _ (by norm_num)
  have e : not32 x = 2 ^ 32 - (x % 2 ^ 32 + 1) := by
    unfold not32; omega
  rw [e, Nat.testBit_two_pow_sub_succ hx, Nat.testBit_mod_two_pow]
  by_cases h : i < 32 <;> simp [h]

theorem not32_lt (x : Nat) : not32 x < 2 ^ 32 := by
  unfold not32; omega

theorem and_two_pow_eq_iff (v k : Nat) : v &&& 2 ^ k = 2 ^ k ↔ v.testBit k = true := by
  constructor
  · intro h
    have := congrArg (fun n => n.testBit k) h
    simpa [Nat.testBit_and, Nat.testBit_two_pow_self] using this
  · intro h
    apply Nat.eq_of_testBit_eq
    intro i
    rw [Nat.testBit_and, Nat.testBit_two_pow]
    by_cases hki : k = i
    · subst hki; simp [h]
    · simp [hki]

theorem and_eq_and_of_testBit (a b m : Nat)
    (h : ∀ i, m.testBit i = true → a.testBit i = b.testBit i) : a &&& m = b &&& m := by
  apply Nat.eq_of_testBit_eq
  intro i
  rw [Nat.testBit_and, Nat.testBit_and]
  cases hm : m.testBit i
  · simp
  · simp [h i hm]

theorem issued_of_log {α : Type} (m : StateM Bus α) (s : Bus) (l : List Access)
    (h : (m.run s).2.log = s.log ++ l) : issued m s = l := by
  unfold issued
  rw [h, List.drop_left]

theorem run_rd (r : Reg) (s : Bus) :
    (rd r).run s = (s.wdog r, { s with log := s.log ++ [Access.load r] }) := rfl

theorem run_wr (r : Reg) (v : Nat) (s : Bus) :
    (wr r v).run s =
      ((), { wdog := Function.update s.wdog r v, log := s.log ++ [Access.store r v] }) := rfl

/-! ## Theorems: the watchdog accessors -/

/-- C3: `WDOGn_IntGetEnabled` returns `IF AND IEN`: bit `i` of the result is set
exactly when bit `i` is set in `IF` (pending) and in `IEN` (enabled). -/
theorem WDOGn_IntGetEnabled_eq_and (s : Bus) :
    (WDOGn_IntGetEnabled.run s).1 = s.wdog Reg.IF &&& s.wdog Reg.IEN ∧
    ∀ i : Nat, (WDOGn_IntGetEnabled.run s).1.testBit i = true ↔
      ((s.wdog Reg.IF).testBit i = true ∧ (s.wdog Reg.IEN).testBit i = true) := by
  have e : (WDOGn_IntGetEnabled.run s).1 = s.wdog Reg.IF &&& s.wdog Reg.IEN := rfl
  refine ⟨e, fun i => ?_⟩
  rw [e, Nat.testBit_and, Bool.and_eq_true]

/-- C4: `WDOGn_IntGet` returns the content of `IF`, issues no store, and leaves
every register of the block, `IF` included, as it was. -/
theorem WDOGn_IntGet_reads_IF (s : Bus) :
    (WDOGn_IntGet.run s).1 = s.wdog Reg.IF ∧
    (WDOGn_IntGet.run s).2.wdog = s.wdog ∧
    (∀ r : Reg, (WDOGn_IntGet.run s).2.wdog r = s.wdog r) ∧
    storesIn (issued WDOGn_IntGet s) = [] := by
  have e : WDOGn_IntGet.run s = (s.wdog Reg.IF, { s with log := s.log ++ [Access.load Reg.IF] }) :=
    rfl
  refine ⟨by rw [e], by rw [e], fun r => by rw [e], ?_⟩
  rw [issued_of_log WDOGn_IntGet s [Access.load Reg.IF] (by rw [e])]
  rfl

theorem run_IntEnable_legacy (dev : WdogDevice) (hdev : dev.defined_WDOG_HAS_SET_CLEAR = false)
    (flags : Nat) (s : Bus) :
    (WDOGn_IntEnable dev flags).run s =
      ((), { wdog := Function.update s.wdog Reg.IEN (s.wdog Reg.IEN ||| flags),
             log := s.log ++ [Access.load Reg.IEN,
                              Access.store Reg.IEN (s.wdog Reg.IEN ||| flags)] }) := by
  have e : (WDOGn_IntEnable dev flags).run s =
      ((), { wdog := Function.update s.wdog Reg.IEN (s.wdog Reg.IEN ||| flags),
             log := (s.log ++ [Access.load Reg.IEN]) ++
                      [Access.store Reg.IEN (s.wdog Reg.IEN ||| flags)] }) := by
    simp only [WDOGn_IntEnable, hdev]
    rfl
  rw [e, List.append_assoc]
  rfl

theorem run_IntDisable_legacy (dev : WdogDevice) (hdev : dev.defined_WDOG_HAS_SET_CLEAR = false)
    (flags : Nat) (s : Bus) :
    (WDOGn_IntDisable dev flags).run s =
      ((), { wdog := Function.update s.wdog Reg.IEN (s.wdog Reg.IEN &&& not32 flags),
             log := s.log ++ [Access.load Reg.IEN,
                              Access.store Reg.IEN (s.wdog Reg.IEN &&& not32 flags)] }) := by
  have e : (WDOGn_IntDisable dev flags).run s =
      ((), { wdog := Function.update s.wdog Reg.IEN (s.wdog Reg.IEN &&& not32 flags),
             log := (s.log ++ [Access.load Reg.IEN]) ++
                      [Access.store Reg.IEN (s.wdog Reg.IEN &&& not32 flags)] }) := by
    simp only [WDOGn_IntDisable, hdev]
    rfl
  rw [e, List.append_assoc]
  rfl

/-- C5: without `WDOG_HAS_SET_CLEAR`, `WDOGn_IntEnable` leaves `IEN` equal to
`old IEN OR flags`: every bit of `flags` is enabled afterwards, every bit
enabled before is still enabled, and every register other than `IEN` is
unchanged. -/
theorem WDOGn_IntEnable_legacy_or (dev : WdogDevice)
    (hdev : dev.defined_WDOG_HAS_SET_CLEAR = false) (flags : Nat) (s : Bus) :
    ((WDOGn_IntEnable dev flags).run s).2.wdog Reg.IEN = s.wdog Reg.IEN ||| flags ∧
    (∀ i : Nat, flags.testBit i = true →
      (((WDOGn_IntEnable dev flags).run s).2.wdog Reg.IEN).testBit i = true) ∧
    (∀ i : Nat, (s.wdog Reg.IEN).testBit i = true →
      (((WDOGn_IntEnable dev flags).run s).2.wdog Reg.IEN).testBit i = true) ∧
    (∀ r : Reg, r ≠ Reg.IEN → ((WDOGn_IntEnable dev flags).run s).2.wdog r = s.wdog r) := by
  rw [run_IntEnable_legacy dev hdev flags s]
  refine ⟨by simp, fun i hi => ?_, fun i hi => ?_, fun r hr => ?_⟩
  · simp [Nat.testBit_or, hi]
  · simp [Nat.testBit_or, hi]
  · simp [Function.update, hr]

/-- Witness for C5: on `legacyDevice`, enabling `0x6` over `IEN = 0x5`. -/
theorem WDOGn_IntEnable_legacy_or_witness :
    legacyDevice.defined_WDOG_HAS_SET_CLEAR = false ∧
    ((WDOGn_IntEnable legacyDevice 0x6).run sampleBus).2.wdog Reg.IEN = 0x5 ||| 0x6 :=
  ⟨rfl, (WDOGn_IntEnable_legacy_or legacyDevice rfl 0x6 sampleBus).1⟩

/-- C6: without `WDOG_HAS_SET_CLEAR`, `WDOGn_IntDisable` leaves `IEN` equal to
`old IEN AND NOT flags` on 32 bits: bit `i` of the new `IEN` is set exactly
when `i < 32`, bit `i` of the old `IEN` is set and bit `i` of `flags` is not.
So every bit of `flags` is disabled, every bit outside `flags` keeps its
value, the new value fits 32 bits, and every register other than `IEN` is
unchanged. -/
theorem WDOGn_IntDisable_legacy_and_not (dev : WdogDevice)
    (hdev : dev.defined_WDOG_HAS_SET_CLEAR = false) (flags : Nat) (s : Bus) :
    ((WDOGn_IntDisable dev flags).run s).2.wdog Reg.IEN = s.wdog Reg.IEN &&& not32 flags ∧
    (∀ i : Nat, (((WDOGn_IntDisable dev flags).run s).2.wdog Reg.IEN).testBit i =
      (decide (i < 32) && ((s.wdog Reg.IEN).testBit i && !flags.testBit i))) ∧
    (∀ i : Nat, flags.testBit i = true →
      (((WDOGn_IntDisable dev flags).run s).2.wdog Reg.IEN).testBit i = false) ∧
    (∀ i : Nat, i < 32 → flags.testBit i = false →
      (((WDOGn_IntDisable dev flags).run s).2.wdog Reg.IEN).testBit i =
        (s.wdog Reg.IEN).testBit i) ∧
    ((WDOGn_IntDisable dev flags).run s).2.wdog Reg.IEN < 2 ^ 32 ∧
    (∀ r : Reg, r ≠ Reg.IEN → ((WDOGn_IntDisable dev flags).run s).2.wdog r = s.wdog r) := by
  simp only [run_IntDisable_legacy dev hdev flags s, Function.update_same]
  have hbit : ∀ i : Nat, (s.wdog Reg.IEN &&& not32 flags).testBit i =
      (decide (i < 32) && ((s.wdog Reg.IEN).testBit i && !flags.testBit i)) := by
    intro i
    rw [Nat.testBit_and, testBit_not32]
    cases (s.wdog Reg.IEN).testBit i <;> cases flags.testBit i <;> simp
  refine ⟨trivial, hbit, fun i hi => ?_, fun i hi hf => ?_, ?_, fun r hr => ?_⟩
  · rw [hbit, hi]; simp
  · rw [hbit, hf]; simp [hi]
  · exact Nat.and_lt_two_pow _ (not32_lt flags)
  · exact Function.update_noteq hr _ _

/-- Witness for C6: on `legacyDevice`, disabling `0x6` over `IEN = 0x5`. -/
theorem WDOGn_IntDisable_legacy_and_not_witness :
    legacyDevice.defined_WDOG_HAS_SET_CLEAR = false ∧
    ((WDOGn_IntDisable legacyDevice 0x6).run sampleBus).2.wdog Reg.IEN = 0x5 &&& not32 0x6 :=
  ⟨rfl, (WDOGn_IntDisable_legacy_and_not legacyDevice rfl 0x6 sampleBus).1⟩

theorem run_IsEnabled (dev : WdogDevice) (s : Bus) :
    (WDOGn_IsEnabled dev).run s =
      if dev.defined_WDOG_EN_MASK then
        (decide (s.wdog Reg.EN &&& dev._WDOG_EN_EN_MASK = dev.WDOG_EN_EN),
          { s with log := s.log ++ [Access.load Reg.EN] })
      else
        (decide (s.wdog Reg.CTRL &&& dev._WDOG_CTRL_EN_MASK = dev.WDOG_CTRL_EN),
          { s with log := s.log ++ [Access.load Reg.CTRL] }) := by
  cases hd : dev.defined_WDOG_EN_MASK <;> simp only [WDOGn_IsEnabled, hd] <;> rfl

theorem run_IsLocked (dev : WdogDevice) (s : Bus) :
    (WDOGn_IsLocked dev).run s =
      if dev.defined_WDOG_STATUS_MASK then
        (decide (s.wdog Reg.STATUS &&& dev._WDOG_STATUS_LOCK_MASK = dev.WDOG_STATUS_LOCK_LOCKED),
          { s with log := s.log ++ [Access.load Reg.STATUS] })
      else
        (decide (s.wdog Reg.CTRL &&& dev._WDOG_CTRL_LOCK_MASK = dev.WDOG_CTRL_LOCK),
          { s with log := s.log ++ [Access.load Reg.CTRL] }) := by
  cases hd : dev.defined_WDOG_STATUS_MASK <;> simp only [WDOGn_IsLocked, hd] <;> rfl

/-- C7: let the enable flag be the single bit `k` (mask and flag value both
`2 ^ k`) of `EN` when `_WDOG_EN_MASK` is defined, of `CTRL` otherwise. Then
`WDOGn_IsEnabled` returns true exactly when that bit is set; two register
blocks that agree on that bit give the same result, whatever their other bits
and registers; and the call issues no store and changes no register. -/
theorem WDOGn_IsEnabled_iff_bit (dev : WdogDevice) (k : Nat)
    (hk : if dev.defined_WDOG_EN_MASK then
            dev._WDOG_EN_EN_MASK = 2 ^ k ∧ dev.WDOG_EN_EN = 2 ^ k
          else
            dev._WDOG_CTRL_EN_MASK = 2 ^ k ∧ dev.WDOG_CTRL_EN = 2 ^ k)
    (s : Bus) :
    (((WDOGn_IsEnabled dev).run s).1 = true ↔
      (s.wdog (if dev.defined_WDOG_EN_MASK then Reg.EN else Reg.CTRL)).testBit k = true) ∧
    (∀ s2 : Bus,
      (s2.wdog (if dev.defined_WDOG_EN_MASK then Reg.EN else Reg.CTRL)).testBit k =
        (s.wdog (if dev.defined_WDOG_EN_MASK then Reg.EN else Reg.CTRL)).testBit k →
      ((WDOGn_IsEnabled dev).run s2).1 = ((WDOGn_IsEnabled dev).run s).1) ∧
    ((WDOGn_IsEnabled dev).run s).2.wdog = s.wdog ∧
    storesIn (issued (WDOGn_IsEnabled dev) s) = [] := by
  have key : ∀ t : Bus, ((WDOGn_IsEnabled dev).run t).1 =
      (t.wdog (if dev.defined_WDOG_EN_MASK then Reg.EN else Reg.CTRL)).testBit k := by
    intro t
    rw [run_IsEnabled]
    cases hd : dev.defined_WDOG_EN_MASK
    · rw [hd] at hk
      simp only [Bool.false_eq_true, if_false] at hk ⊢
      rw [hk.1, hk.2, Bool.eq_iff_iff, decide_eq_true_iff]
      exact and_two_pow_eq_iff _ _
    · rw [hd] at hk
      simp only [if_true] at hk ⊢
      rw [hk.1, hk.2, Bool.eq_iff_iff, decide_eq_true_iff]
      exact and_two_pow_eq_iff _ _
  refine ⟨by rw [key], fun s2 h => by rw [key, key, h], ?_, ?_⟩
  · rw [run_IsEnabled]
    cases dev.defined_WDOG_EN_MASK <;> rfl
  · cases hd : dev.defined_WDOG_EN_MASK
    · rw [issued_of_log _ s [Access.load Reg.CTRL] (by rw [run_IsEnabled, hd]; rfl)]
      rfl
    · rw [issued_of_log _ s [Access.load Reg.EN] (by rw [run_IsEnabled, hd]; rfl)]
      rfl

/-- Witness for C7: on `setClearDevice` the enable flag is bit 0 of `EN`, which
is set in `sampleBus`. -/
theorem WDOGn_IsEnabled_iff_bit_witness :
    (if setClearDevice.defined_WDOG_EN_MASK then
        setClearDevice._WDOG_EN_EN_MASK = 2 ^ 0 ∧ setClearDevice.WDOG_EN_EN = 2 ^ 0
      else
        setClearDevice._WDOG_CTRL_EN_MASK = 2 ^ 0 ∧ setClearDevice.WDOG_CTRL_EN = 2 ^ 0) ∧
    (((WDOGn_IsEnabled setClearDevice).run sampleBus).1 = true ↔
      (sampleBus.wdog (if setClearDevice.defined_WDOG_EN_MASK then Reg.EN else Reg.CTRL)).testBit 0
        = true) :=
  ⟨by decide, (WDOGn_IsEnabled_iff_bit setClearDevice 0 (by decide) sampleBus).1⟩

/-- C8: `WDOGn_IsLocked` returns true exactly when the lock field (`STATUS`
masked with `_WDOG_STATUS_LOCK_MASK` when `_WDOG_STATUS_MASK` is defined,
`CTRL` masked with `_WDOG_CTRL_LOCK_MASK` otherwise) equals the locked value;
two register blocks that agree on every bit of the lock mask give the same
result; and the call issues no store and changes no register. -/
theorem WDOGn_IsLocked_iff_field (dev : WdogDevice) (s : Bus) :
    (((WDOGn_IsLocked dev).run s).1 = true ↔
      if dev.defined_WDOG_STATUS_MASK then
        s.wdog Reg.STATUS &&& dev._WDOG_STATUS_LOCK_MASK = dev.WDOG_STATUS_LOCK_LOCKED
      else
        s.wdog Reg.CTRL &&& dev._WDOG_CTRL_LOCK_MASK = dev.WDOG_CTRL_LOCK) ∧
    (∀ s2 : Bus,
      (∀ i : Nat,
        (if dev.defined_WDOG_STATUS_MASK then dev._WDOG_STATUS_LOCK_MASK
          else dev._WDOG_CTRL_LOCK_MASK).testBit i = true →
        (s2.wdog (if dev.defined_WDOG_STATUS_MASK then Reg.STATUS else Reg.CTRL)).testBit i =
          (s.wdog (if dev.defined_WDOG_STATUS_MASK then Reg.STATUS else Reg.CTRL)).testBit i) →
      ((WDOGn_IsLocked dev).run s2).1 = ((WDOGn_IsLocked dev).run s).1) ∧
    ((WDOGn_IsLocked dev).run s).2.wdog = s.wdog ∧
    storesIn (issued (WDOGn_IsLocked dev) s) = [] := by
  refine ⟨?_, fun s2 h => ?_, ?_, ?_⟩
  · rw [run_IsLocked]
    cases dev.defined_WDOG_STATUS_MASK <;> simp
  · rw [run_IsLocked, run_IsLocked]
    cases hd : dev.defined_WDOG_STATUS_MASK
    · rw [hd] at h
      simp only [Bool.false_eq_true, if_false] at h ⊢
      rw [and_eq_and_of_testBit _ _ _ h]
    · rw [hd] at h
      simp only [if_true] at h ⊢
      rw [and_eq_and_of_testBit _ _ _ h]
  · rw [run_IsLocked]
    cases dev.defined_WDOG_STATUS_MASK <;> rfl
  · cases hd : dev.defined_WDOG_STATUS_MASK
    · rw [issued_of_log _ s [Access.load Reg.CTRL] (by rw [run_IsLocked, hd]; rfl)]
      rfl
    · rw [issued_of_log _ s [Access.load Reg.STATUS] (by rw [run_IsLocked, hd]; rfl)]
      rfl

theorem run_IntClear (dev : WdogDevice) (flags : Nat) (s : Bus) :
    (WDOGn_IntClear dev flags).run s =
      (wr (if dev.defined_WDOG_HAS_SET_CLEAR then Reg.IF_CLR else Reg.IFC) flags).run s := by
  cases hd : dev.defined_WDOG_HAS_SET_CLEAR <;> simp only [WDOGn_IntClear, hd] <;> rfl

theorem run_IntSet (dev : WdogDevice) (flags : Nat) (s : Bus) :
    (WDOGn_IntSet dev flags).run s =
      (wr (if dev.defined_WDOG_HAS_SET_CLEAR then Reg.IF_SET else Reg.IFS) flags).run s := by
  cases hd : dev.defined_WDOG_HAS_SET_CLEAR <;> simp only [WDOGn_IntSet, hd] <;> rfl

theorem run_IntEnable_setclear (dev : WdogDevice)
    (hdev : dev.defined_WDOG_HAS_SET_CLEAR = true) (flags : Nat) (s : Bus) :
    (WDOGn_IntEnable dev flags).run s = (wr Reg.IEN_SET flags).run s := by
  simp only [WDOGn_IntEnable, hdev]; rfl

theorem run_IntDisable_setclear (dev : WdogDevice)
    (hdev : dev.defined_WDOG_HAS_SET_CLEAR = true) (flags : Nat) (s : Bus) :
    (WDOGn_IntDisable dev flags).run s = (wr Reg.IEN_CLR flags).run s := by
  simp only [WDOGn_IntDisable, hdev]; rfl

/-- What a call that ends in the single store `wdog->r = v`, after the loads
`pre`, does to the log and to the block. -/
theorem single_store_effect (m : StateM Bus Unit) (s : Bus) (pre : List Access) (r : Reg)
    (v : Nat)
    (h : m.run s = ((), { wdog := Function.update s.wdog r v,
                          log := s.log ++ (pre ++ [Access.store r v]) }))
    (hpre : storesIn pre = []) :
    storesIn (issued m s) = [(r, v)] ∧
    ∀ r2 : Reg, (m.run s).2.wdog r2 = if r2 = r then v else s.wdog r2 := by
  constructor
  · rw [issued_of_log m s (pre ++ [Access.store r v]) (by rw [h])]
    have happ : ∀ l : List Access, storesIn l = [] →
        storesIn (l ++ [Access.store r v]) = [(r, v)] := by
      intro l
      induction l with
      | nil => intro _; rfl
      | cons a l ih =>
        cases a with
        | load r1 => intro hl; exact ih hl
        | store r1 v1 => intro hl; simp [storesIn] at hl
    exact happ pre hpre
  · intro r2
    rw [h]
    by_cases h2 : r2 = r
    · subst h2; simp
    · simp [Function.update, h2]

/-- C9: in either feature variant, each of `WDOGn_IntClear`, `WDOGn_IntSet`,
`WDOGn_IntEnable` and `WDOGn_IntDisable` issues exactly one store per call.
`WDOGn_IntClear` stores `flags` itself to `IF_CLR` (or `IFC`), `WDOGn_IntSet`
stores `flags` itself to `IF_SET` (or `IFS`); the other two store to `IEN_SET`
/ `IEN_CLR` (or `IEN`). Afterwards the register written holds the value
stored and every other register is as before. -/
theorem WDOGn_Int_single_store (dev : WdogDevice) (flags : Nat) (s : Bus) :
    (storesIn (issued (WDOGn_IntClear dev flags) s) =
        [(if dev.defined_WDOG_HAS_SET_CLEAR then Reg.IF_CLR else Reg.IFC, flags)] ∧
      ∀ r : Reg, ((WDOGn_IntClear dev flags).run s).2.wdog r =
        if r = (if dev.defined_WDOG_HAS_SET_CLEAR then Reg.IF_CLR else Reg.IFC) then flags
        else s.wdog r) ∧
    (storesIn (issued (WDOGn_IntSet dev flags) s) =
        [(if dev.defined_WDOG_HAS_SET_CLEAR then Reg.IF_SET else Reg.IFS, flags)] ∧
      ∀ r : Reg, ((WDOGn_IntSet dev flags).run s).2.wdog r =
        if r = (if dev.defined_WDOG_HAS_SET_CLEAR then Reg.IF_SET else Reg.IFS) then flags
        else s.wdog r) ∧
    (storesIn (issued (WDOGn_IntEnable dev flags) s) =
        [(if dev.defined_WDOG_HAS_SET_CLEAR then Reg.IEN_SET else Reg.IEN,
          if dev.defined_WDOG_HAS_SET_CLEAR then flags else s.wdog Reg.IEN ||| flags)] ∧
      ∀ r : Reg, ((WDOGn_IntEnable dev flags).run s).2.wdog r =
        if r = (if dev.defined_WDOG_HAS_SET_CLEAR then Reg.IEN_SET else Reg.IEN) then
          (if dev.defined_WDOG_HAS_SET_CLEAR then flags else s.wdog Reg.IEN ||| flags)
        else s.wdog r) ∧
    (storesIn (issued (WDOGn_IntDisable dev flags) s) =
        [(if dev.defined_WDOG_HAS_SET_CLEAR then Reg.IEN_CLR else Reg.IEN,
          if dev.defined_WDOG_HAS_SET_CLEAR then flags else s.wdog Reg.IEN &&& not32 flags)] ∧
      ∀ r : Reg, ((WDOGn_IntDisable dev flags).run s).2.wdog r =
        if r = (if dev.defined_WDOG_HAS_SET_CLEAR then Reg.IEN_CLR else Reg.IEN) then
          (if dev.defined_WDOG_HAS_SET_CLEAR then flags else s.wdog Reg.IEN &&& not32 flags)
        else s.wdog r) ∧
    (storesIn (issued (WDOGn_IntClear dev flags) s)).length = 1 ∧
    (storesIn (issued (WDOGn_IntSet dev flags) s)).length = 1 ∧
    (storesIn (issued (WDOGn_IntEnable dev flags) s)).length = 1 ∧
    (storesIn (issued (WDOGn_IntDisable dev flags) s)).length = 1 := by
  have hClear := single_store_effect (WDOGn_IntClear dev flags) s []
    (if dev.defined_WDOG_HAS_SET_CLEAR then Reg.IF_CLR else Reg.IFC) flags
    (by rw [run_IntClear]; rfl) rfl
  have hSet := single_store_effect (WDOGn_IntSet dev flags) s []
    (if dev.defined_WDOG_HAS_SET_CLEAR then Reg.IF_SET else Reg.IFS) flags
    (by rw [run_IntSet]; rfl) rfl
  have hEnable : storesIn (issued (WDOGn_IntEnable dev flags) s) =
        [(if dev.defined_WDOG_HAS_SET_CLEAR then Reg.IEN_SET else Reg.IEN,
          if dev.defined_WDOG_HAS_SET_CLEAR then flags else s.wdog Reg.IEN ||| flags)] ∧
      ∀ r : Reg, ((WDOGn_IntEnable dev flags).run s).2.wdog r =
        if r = (if dev.defined_WDOG_HAS_SET_CLEAR then Reg.IEN_SET else Reg.IEN) then
          (if dev.defined_WDOG_HAS_SET_CLEAR then flags else s.wdog Reg.IEN ||| flags)
        else s.wdog r := by
    cases hd : dev.defined_WDOG_HAS_SET_CLEAR
    · exact single_store_effect (WDOGn_IntEnable dev flags) s [Access.load Reg.IEN] Reg.IEN
        (s.wdog Reg.IEN ||| flags) (by rw [run_IntEnable_legacy dev hd]; rfl) rfl
    · exact single_store_effect (WDOGn_IntEnable dev flags) s [] Reg.IEN_SET flags
        (by rw [run_IntEnable_setclear dev hd]; rfl) rfl
  have hDisable : storesIn (issued (WDOGn_IntDisable dev flags) s) =
        [(if dev.defined_WDOG_HAS_SET_CLEAR then Reg.IEN_CLR else Reg.IEN,
          if dev.defined_WDOG_HAS_SET_CLEAR then flags else s.wdog Reg.IEN &&& not32 flags)] ∧
      ∀ r : Reg, ((WDOGn_IntDisable dev flags).run s).2.wdog r =
        if r = (if dev.defined_WDOG_HAS_SET_CLEAR then Reg.IEN_CLR else Reg.IEN) then
          (if dev.defined_WDOG_HAS_SET_CLEAR then flags else s.wdog Reg.IEN &&& not32 flags)
        else s.wdog r := by
    cases hd : dev.defined_WDOG_HAS_SET_CLEAR
    · exact single_store_effect (WDOGn_IntDisable dev flags) s [Access.load Reg.IEN] Reg.IEN
        (s.wdog Reg.IEN &&& not32 flags) (by rw [run_IntDisable_legacy dev hd]; rfl) rfl
    · exact single_store_effect (WDOGn_IntDisable dev flags) s [] Reg.IEN_CLR flags
        (by rw [run_IntDisable_setclear dev hd]; rfl) rfl
  refine ⟨hClear, hSet, hEnable, hDisable, ?_, ?_, ?_, ?_⟩
  · rw [hClear.1]; rfl
  · rw [hSet.1]; rfl
  · rw [hEnable.1]; rfl
  · rw [hDisable.1]; rfl

/-- C10: for each of the 16 values of `WDOG_PeriodSel_TypeDef` the documented
number of clock periods is `2 ^ (code + 3) + 1` (`wdogPeriod_9` has code 0 and
9 periods, `wdogPeriod_1k` code 7 and 1025, `wdogPeriod_256k` code 15 and
262145); the codes of the 16 enumerators are exactly `0, 1, ..., 15`, and a
larger code has a strictly larger period. -/
theorem WDOG_PeriodSel_clockPeriods (p q : WDOG_PeriodSel_TypeDef) :
    p.clockPeriods = 2 ^ (p.code + 3) + 1 ∧
    (WDOG_PeriodSel_TypeDef.wdogPeriod_9.code = 0 ∧
      WDOG_PeriodSel_TypeDef.wdogPeriod_9.clockPeriods = 9) ∧
    (WDOG_PeriodSel_TypeDef.wdogPeriod_1k.code = 7 ∧
      WDOG_PeriodSel_TypeDef.wdogPeriod_1k.clockPeriods = 1025) ∧
    (WDOG_PeriodSel_TypeDef.wdogPeriod_256k.code = 0xF ∧
      WDOG_PeriodSel_TypeDef.wdogPeriod_256k.clockPeriods = 262145) ∧
    p ∈ WDOG_PeriodSel_TypeDef.all ∧
    WDOG_PeriodSel_TypeDef.all.length = 16 ∧
    WDOG_PeriodSel_TypeDef.all.map WDOG_PeriodSel_TypeDef.code = List.range 16 ∧
    (p.code = q.code ↔ p = q) ∧
    (p.code < q.code ↔ p.clockPeriods < q.clockPeriods) := by
  refine ⟨?_, ⟨rfl, rfl⟩, ⟨rfl, rfl⟩, ⟨rfl, rfl⟩, ?_, rfl, by decide, ?_, ?_⟩
  · cases p <;> rfl
  · cases p <;> decide
  · cases p <;> cases q <;> decide
  · cases p <;> cases q <;> decide

/-! ## Theorems: which accessors read before they write -/

/-- C15, counterexample: on a device without `WDOG_HAS_SET_CLEAR`,
`WDOGn_IntClear` with `flags = 0x1` is not a read-modify-write. It issues the
single access `IFC = 0x1`, reads nothing, and stores the same value `0x1`
whether `IFC` held `0` before (`sampleBus`) or `0xFFFF` (`otherBus`), and
indeed from every state. -/
theorem WDOGn_IntClear_not_read_modify_write :
    readModifyWrite (issued (WDOGn_IntClear legacyDevice 0x1) sampleBus) = false ∧
    issued (WDOGn_IntClear legacyDevice 0x1) sampleBus = [Access.store Reg.IFC 0x1] ∧
    issued (WDOGn_IntClear legacyDevice 0x1) otherBus = [Access.store Reg.IFC 0x1] ∧
    sampleBus.wdog Reg.IFC = 0 ∧ otherBus.wdog Reg.IFC = 0xFFFF ∧
    (∀ s : Bus, issued (WDOGn_IntClear legacyDevice 0x1) s = [Access.store Reg.IFC 0x1]) := by
  refine ⟨by decide, by decide, by decide, rfl, rfl, fun s => ?_⟩
  exact issued_of_log _ s _ (by rw [run_IntClear]; rfl)

/-- C15, amended: `WDOGn_IntEnable` and `WDOGn_IntDisable` without
`WDOG_HAS_SET_CLEAR` are read-modify-writes of `IEN`: they load `IEN` and
store `old IEN OR flags`, respectively `old IEN AND NOT flags`. In every other
case (`WDOGn_IntClear` and `WDOGn_IntSet` in both variants, `WDOGn_IntEnable`
and `WDOGn_IntDisable` with `WDOG_HAS_SET_CLEAR`) the function reads no
register and issues the single store of `flags` itself. -/
theorem WDOGn_Int_accesses (dev : WdogDevice) (flags : Nat) (s : Bus) :
    issued (WDOGn_IntClear dev flags) s =
      [Access.store (if dev.defined_WDOG_HAS_SET_CLEAR then Reg.IF_CLR else Reg.IFC) flags] ∧
    issued (WDOGn_IntSet dev flags) s =
      [Access.store (if dev.defined_WDOG_HAS_SET_CLEAR then Reg.IF_SET else Reg.IFS) flags] ∧
    issued (WDOGn_IntEnable dev flags) s =
      (if dev.defined_WDOG_HAS_SET_CLEAR then [Access.store Reg.IEN_SET flags]
        else [Access.load Reg.IEN, Access.store Reg.IEN (s.wdog Reg.IEN ||| flags)]) ∧
    issued (WDOGn_IntDisable dev flags) s =
      (if dev.defined_WDOG_HAS_SET_CLEAR then [Access.store Reg.IEN_CLR flags]
        else [Access.load Reg.IEN, Access.store Reg.IEN (s.wdog Reg.IEN &&& not32 flags)]) ∧
    readModifyWrite (issued (WDOGn_IntClear dev flags) s) = false ∧
    readModifyWrite (issued (WDOGn_IntSet dev flags) s) = false ∧
    readModifyWrite (issued (WDOGn_IntEnable dev flags) s) = !dev.defined_WDOG_HAS_SET_CLEAR ∧
    readModifyWrite (issued (WDOGn_IntDisable dev flags) s) = !dev.defined_WDOG_HAS_SET_CLEAR := by
  have hClear : issued (WDOGn_IntClear dev flags) s =
      [Access.store (if dev.defined_WDOG_HAS_SET_CLEAR then Reg.IF_CLR else Reg.IFC) flags] :=
    issued_of_log _ s _ (by rw [run_IntClear]; rfl)
  have hSet : issued (WDOGn_IntSet dev flags) s =
      [Access.store (if dev.defined_WDOG_HAS_SET_CLEAR then Reg.IF_SET else Reg.IFS) flags] :=
    issued_of_log _ s _ (by rw [run_IntSet]; rfl)
  have hEnable : issued (WDOGn_IntEnable dev flags) s =
      (if dev.defined_WDOG_HAS_SET_CLEAR then [Access.store Reg.IEN_SET flags]
        else [Access.load Reg.IEN, Access.store Reg.IEN (s.wdog Reg.IEN ||| flags)]) := by
    cases hd : dev.defined_WDOG_HAS_SET_CLEAR
    · exact issued_of_log _ s _ (by rw [run_IntEnable_legacy dev hd]; rfl)
    · exact issued_of_log _ s _ (by rw [run_IntEnable_setclear dev hd]; rfl)
  have hDisable : issued (WDOGn_IntDisable dev flags) s =
      (if dev.defined_WDOG_HAS_SET_CLEAR then [Access.store Reg.IEN_CLR flags]
        else [Access.load Reg.IEN, Access.store Reg.IEN (s.wdog Reg.IEN &&& not32 flags)]) := by
    cases hd : dev.defined_WDOG_HAS_SET_CLEAR
    · exact issued_of_log _ s _ (by rw [run_IntDisable_legacy dev hd]; rfl)
    · exact issued_of_log _ s _ (by rw [run_IntDisable_setclear dev hd]; rfl)
  refine ⟨hClear, hSet, hEnable, hDisable, ?_, ?_, ?_, ?_⟩
  · rw [hClear]; rfl
  · rw [hSet]; rfl
  · rw [hEnable]; cases dev.defined_WDOG_HAS_SET_CLEAR <;> simp [readModifyWrite]
  · rw [hDisable]; cases dev.defined_WDOG_HAS_SET_CLEAR <;> simp [readModifyWrite]

/-! ## Theorems: the watchdog initialization structure -/

theorem isVariant_cases (m : WdogInitMacros) (hm : m.isVariant = true) :
    m = cfgEm1RunMacros ∨ m = cfgMacros ∨ m = ctrlWarnMacros ∨ m = ctrlMacros := by
  rcases m with ⟨a, b, c, d, e, f, g, h, i, j, k, l⟩
  cases d
  · simp [WdogInitMacros.isVariant] at hm
    obtain ⟨⟨⟨⟨⟨⟨⟨hb, hc⟩, hh⟩, hj⟩, hl⟩, he⟩, hf⟩, hor⟩ := hm
    subst hb hc hh hj hl he hf
    rcases hor with ⟨⟨⟨ha, hg⟩, hi⟩, hk⟩ | ⟨⟨⟨ha, hg⟩, hi⟩, hk⟩
    · subst ha hg hi hk
      exact Or.inr (Or.inr (Or.inl rfl))
    · subst ha hg hi hk
      exact Or.inr (Or.inr (Or.inr rfl))
  · simp [WdogInitMacros.isVariant] at hm
    obtain ⟨⟨⟨⟨hb, hh⟩, hj⟩, hl⟩, ⟨⟨⟨⟨ha, he⟩, hf⟩, hg⟩, hi⟩, hk⟩ := hm
    subst hb hh hj hl ha he hf hg hi hk
    cases c
    · exact Or.inr (Or.inl rfl)
    · exact Or.inl rfl

theorem wdogPeriod_256k_largest (p : WDOG_PeriodSel_TypeDef) :
    p.code ≤ WDOG_PeriodSel_TypeDef.wdogPeriod_256k.code ∧
    p.clockPeriods ≤ WDOG_PeriodSel_TypeDef.wdogPeriod_256k.clockPeriods := by
  cases p <;> decide

/-- C11: in each of the four feature variants of `WDOG_INIT_DEFAULT` the
initializer list has exactly as many entries as `WDOG_Init_TypeDef` has
members under the variant's feature macros, and the types of the entries are
the types of the members in declaration order. The initialized structure has
`enable = true`, `debugRun = false`, `em2Run = em3Run = em4Block = false`,
`lock = false` and `perSel = wdogPeriod_256k`, and no value of
`WDOG_PeriodSel_TypeDef` has a larger code or a longer period than
`wdogPeriod_256k`. -/
theorem WDOG_INIT_DEFAULT_lines_up (m : WdogInitMacros) (hm : m.isVariant = true) :
    (WDOG_INIT_DEFAULT m).length = (WDOG_Init_TypeDef m).length ∧
    (WDOG_INIT_DEFAULT m).map Initializer.type = (WDOG_Init_TypeDef m).map InitMember.type ∧
    initialValue m InitMember.enable = some (Initializer.boolean true) ∧
    initialValue m InitMember.debugRun = some (Initializer.boolean false) ∧
    initialValue m InitMember.em2Run = some (Initializer.boolean false) ∧
    initialValue m InitMember.em3Run = some (Initializer.boolean false) ∧
    initialValue m InitMember.em4Block = some (Initializer.boolean false) ∧
    initialValue m InitMember.lock = some (Initializer.boolean false) ∧
    initialValue m InitMember.perSel =
      some (Initializer.period WDOG_PeriodSel_TypeDef.wdogPeriod_256k) ∧
    (∀ p : WDOG_PeriodSel_TypeDef,
      p.code ≤ WDOG_PeriodSel_TypeDef.wdogPeriod_256k.code ∧
      p.clockPeriods ≤ WDOG_PeriodSel_TypeDef.wdogPeriod_256k.clockPeriods) := by
  rcases isVariant_cases m hm with h | h | h | h <;> subst h <;>
    exact ⟨by decide, by decide, by decide, by decide, by decide, by decide, by decide,
      by decide, by decide, wdogPeriod_256k_largest⟩

/-- Witness for C11: the four variants, one for each branch of the conditional
around `WDOG_INIT_DEFAULT`, with 14, 13, 13 and 9 entries. -/
theorem WDOG_INIT_DEFAULT_lines_up_witness :
    (cfgEm1RunMacros.isVariant = true ∧ cfgMacros.isVariant = true ∧
      ctrlWarnMacros.isVariant = true ∧ ctrlMacros.isVariant = true) ∧
    ((WDOG_INIT_DEFAULT cfgEm1RunMacros).length = (WDOG_Init_TypeDef cfgEm1RunMacros).length ∧
      (WDOG_INIT_DEFAULT cfgMacros).length = (WDOG_Init_TypeDef cfgMacros).length ∧
      (WDOG_INIT_DEFAULT ctrlWarnMacros).length = (WDOG_Init_TypeDef ctrlWarnMacros).length ∧
      (WDOG_INIT_DEFAULT ctrlMacros).length = (WDOG_Init_TypeDef ctrlMacros).length) ∧
    [cfgEm1RunMacros, cfgMacros, ctrlWarnMacros, ctrlMacros].map
      (fun m => (WDOG_INIT_DEFAULT m).length) = [14, 13, 13, 9] :=
  ⟨by decide,
    ⟨(WDOG_INIT_DEFAULT_lines_up cfgEm1RunMacros (by decide)).1,
      (WDOG_INIT_DEFAULT_lines_up cfgMacros (by decide)).1,
      (WDOG_INIT_DEFAULT_lines_up ctrlWarnMacros (by decide)).1,
      (WDOG_INIT_DEFAULT_lines_up ctrlMacros (by decide)).1⟩,
    by decide⟩

/-! ## Theorems: secure element constants -/

/-- C12: for each ECC key type constant, in the order P192, P224, P256, P384,
P521, X25519, X448, ED25519, ED448, the algorithm field is the code of the
family it is built from (`0x8` Weierstrass prime, `0xb` Montgomery, `0xc`
EdDSA) and the attributes field is the key size in bytes (24, 28, 32, 48, 66,
32, 56, 32, 56); each constant is its family constant with the size or-ed in;
and the algorithm mask is `0xF` shifted left by the algorithm offset. -/
theorem SL_SE_KEY_TYPE_ECC_fields :
    [SL_SE_KEY_TYPE_ECC_P192, SL_SE_KEY_TYPE_ECC_P224, SL_SE_KEY_TYPE_ECC_P256,
      SL_SE_KEY_TYPE_ECC_P384, SL_SE_KEY_TYPE_ECC_P521, SL_SE_KEY_TYPE_ECC_X25519,
      SL_SE_KEY_TYPE_ECC_X448, SL_SE_KEY_TYPE_ECC_ED25519, SL_SE_KEY_TYPE_ECC_ED448].map
        (fun t => (keyTypeAlgorithm t, keyTypeAttributes t)) =
      [(0x8, 24), (0x8, 28), (0x8, 32), (0x8, 48), (0x8, 66), (0xb, 32), (0xb, 56),
        (0xc, 32), (0xc, 56)] ∧
    [SL_SE_KEY_TYPE_ECC_P192, SL_SE_KEY_TYPE_ECC_P224, SL_SE_KEY_TYPE_ECC_P256,
      SL_SE_KEY_TYPE_ECC_P384, SL_SE_KEY_TYPE_ECC_P521, SL_SE_KEY_TYPE_ECC_X25519,
      SL_SE_KEY_TYPE_ECC_X448, SL_SE_KEY_TYPE_ECC_ED25519, SL_SE_KEY_TYPE_ECC_ED448] =
      [SL_SE_KEY_TYPE_ECC_WEIERSTRASS_PRIME_CUSTOM ||| 24,
        SL_SE_KEY_TYPE_ECC_WEIERSTRASS_PRIME_CUSTOM ||| 28,
        SL_SE_KEY_TYPE_ECC_WEIERSTRASS_PRIME_CUSTOM ||| 32,
        SL_SE_KEY_TYPE_ECC_WEIERSTRASS_PRIME_CUSTOM ||| 48,
        SL_SE_KEY_TYPE_ECC_WEIERSTRASS_PRIME_CUSTOM ||| 66,
        SL_SE_KEY_TYPE_ECC_MONTGOMERY ||| 32, SL_SE_KEY_TYPE_ECC_MONTGOMERY ||| 56,
        SL_SE_KEY_TYPE_ECC_EDDSA ||| 32, SL_SE_KEY_TYPE_ECC_EDDSA ||| 56] ∧
    [SL_SE_KEY_TYPE_ECC_WEIERSTRASS_PRIME_CUSTOM, SL_SE_KEY_TYPE_ECC_MONTGOMERY,
      SL_SE_KEY_TYPE_ECC_EDDSA].map keyTypeAlgorithm = [0x8, 0xb, 0xc] ∧
    SL_SE_KEY_TYPE_ALGORITHM_MASK = 0xF <<< SL_SE_KEY_TYPE_ALGORITHM_OFFSET := by
  refine ⟨by decide, by decide, by decide, by decide⟩

/-- C13: the AES key type constants are the key lengths in bytes, 16, 24 and
32, that is the key length in bits divided by 8, and each has the algorithm
field 0, which is the algorithm field of `SL_SE_KEY_TYPE_SYMMETRIC`. -/
theorem SL_SE_KEY_TYPE_AES_lengths :
    (SL_SE_KEY_TYPE_AES_128 = 16 ∧ SL_SE_KEY_TYPE_AES_192 = 24 ∧
      SL_SE_KEY_TYPE_AES_256 = 32) ∧
    (SL_SE_KEY_TYPE_AES_128 = 128 / 8 ∧ SL_SE_KEY_TYPE_AES_192 = 192 / 8 ∧
      SL_SE_KEY_TYPE_AES_256 = 256 / 8) ∧
    (keyTypeAlgorithm SL_SE_KEY_TYPE_AES_128 = 0 ∧ keyTypeAlgorithm SL_SE_KEY_TYPE_AES_192 = 0 ∧
      keyTypeAlgorithm SL_SE_KEY_TYPE_AES_256 = 0) ∧
    keyTypeAlgorithm SL_SE_KEY_TYPE_SYMMETRIC = 0 ∧
    (keyTypeAlgorithm SL_SE_KEY_TYPE_AES_128 = keyTypeAlgorithm SL_SE_KEY_TYPE_SYMMETRIC ∧
      keyTypeAlgorithm SL_SE_KEY_TYPE_AES_192 = keyTypeAlgorithm SL_SE_KEY_TYPE_SYMMETRIC ∧
      keyTypeAlgorithm SL_SE_KEY_TYPE_AES_256 = keyTypeAlgorithm SL_SE_KEY_TYPE_SYMMETRIC) := by
  refine ⟨by decide, by decide, by decide, by decide, by decide⟩

/-- C14: in each of the four variants of the tamper signal table the values of
the signal constants are pairwise distinct, each is below
`SL_SE_TAMPER_SIGNAL_NUM_SIGNALS`, which is `0x20`, every value below `0x20`
is the value of exactly one constant, and so the number of constants is
`SL_SE_TAMPER_SIGNAL_NUM_SIGNALS`. Each variant is the branch the preprocessor
takes for some choice of the device-family macros. -/
theorem tamperSignals_cover (v : TamperVariant) :
    SL_SE_TAMPER_SIGNAL_NUM_SIGNALS v = 0x20 ∧
    (tamperSignalValues v).Nodup ∧
    (∀ x ∈ tamperSignalValues v, x < SL_SE_TAMPER_SIGNAL_NUM_SIGNALS v) ∧
    (∀ x : Nat, x < SL_SE_TAMPER_SIGNAL_NUM_SIGNALS v → (tamperSignalValues v).count x = 1) ∧
    (tamperSignalValues v).length = SL_SE_TAMPER_SIGNAL_NUM_SIGNALS v ∧
    (∃ m : SeFamilyMacros, tamperVariant m = some v) := by
  cases v
  · exact ⟨rfl, by decide, by decide, by decide, by decide, ⟨true, true, false, false, false⟩, rfl⟩
  · exact ⟨rfl, by decide, by decide, by decide, by decide, ⟨false, true, true, false, false⟩, rfl⟩
  · exact ⟨rfl, by decide, by decide, by decide, by decide, ⟨false, true, false, false, false⟩, rfl⟩
  · exact ⟨rfl, by decide, by decide, by decide, by decide, ⟨false, false, false, false, true⟩, rfl⟩

end HalSilabs
